import Mathlib

/-!
Verification of the MT5_UI AI trading core against its specification.

The definitions below are a shallow embedding of the Python sources:
* `backend/ai/confidence.py`  — confidence scoring,
* `backend/ai/scheduler.py`   — action scheduling,
* `backend/ai/emnr.py`        — EMNR rule evaluation,
* `backend/ai/engine.py`      — stop/target calculation,
* `backend/ai/executor.py`    — execution safety validation, position sizing,
                                order execution,
* `backend/ai_routes.py`      — in-memory lifecycle endpoints,
* `backend/trade_approval_routes.py` — file-based lifecycle endpoints.

Python floats are modelled as rationals (`ℚ`), machine integers as `ℤ`;
Python calls that may raise are modelled with `Except Unit`.  Python's
`round` builtin (round half to even) is modelled by `pyRound`/`roundDp`.
-/

namespace MT5UI

/-- Python's `round(q)` builtin: round half to even (banker's rounding). -/
def pyRound (q : ℚ) : ℤ :=
  let f := ⌊q⌋
  let frac := q - f
  if frac < 1/2 then f
  else if 1/2 < frac then f + 1
  else if f % 2 = 0 then f else f + 1

/-- Python's `round(q, d)`: round to `d` decimal places, half to even. -/
def roundDp (d : ℕ) (q : ℚ) : ℚ := (pyRound (q * 10 ^ d) : ℚ) / 10 ^ d

theorem pyRound_intCast (n : ℤ) : pyRound (n : ℚ) = n := by
  simp [pyRound]

/-- EMNR flag record (`emnr_flags` dictionary with keys
`entry`, `exit`, `strong`, `weak`; a missing key reads as `False`). -/
structure EMNRFlags where
  entry : Bool
  exit : Bool
  strong : Bool
  weak : Bool
deriving Repr, DecidableEq

/-- Embedding of `confidence_score` from `backend/ai/confidence.py`:
conditionally add the fixed weights (entry +30, strong +25, weak −15,
exit −40, alignment +10), add the news penalty, clamp to [0, 100]. -/
def confidence_score (emnr_flags : EMNRFlags) (align_ok : Bool)
    (news_penalty : ℤ) : ℤ :=
  let score : ℤ := 0
  let score := if emnr_flags.entry then score + 30 else score
  let score := if emnr_flags.strong then score + 25 else score
  let score := if emnr_flags.weak then score + (-15) else score
  let score := if emnr_flags.exit then score + (-40) else score
  let score := if align_ok then score + 10 else score
  let score := score + news_penalty
  max 0 (min 100 score)

/-- Iverson bracket on booleans, used to state the weight-table formula. -/
def ind (b : Bool) : ℤ := if b then 1 else 0

/-- Result of `schedule_action`: the action string together with the numeric
value of the returned `riskPct` string (the source formats the rational with
`%.3f`, i.e. rounds it to three decimal places before rendering it). -/
structure ActionPlan where
  action : String
  riskPct : ℚ
deriving Repr, DecidableEq

/-- Embedding of `schedule_action` from `backend/ai/scheduler.py`. -/
def schedule_action (confidence : ℤ) (min_rr_ok : Bool)
    (risk_cap_pct : ℚ) : ActionPlan :=
  if confidence < 60 then
    { action := "observe", riskPct := 0 }
  else if confidence < 75 then
    { action := "pending_only", riskPct := roundDp 3 (min (risk_cap_pct / 2) (2/100)) }
  else if !min_rr_ok then
    { action := "wait_rr", riskPct := 0 }
  else
    { action := "open_or_scale", riskPct := roundDp 3 risk_cap_pct }

/-- Python `dict.get(k, d)` on a dictionary modelled as an association list. -/
def lookupD {α : Type} (m : List (String × α)) (k : String) (d : α) : α :=
  match m.find? (fun p => p.1 == k) with
  | some p => p.2
  | none => d

/-- Embedding of `evaluate_conditions` from `backend/ai/emnr.py`: for each
condition category, an empty (or missing) list yields `false`; otherwise the
flag is the conjunction of the listed facts, a missing fact reading `false`. -/
def evalFlag (facts : List (String × Bool))
    (conditions : List (String × List String)) (t : String) : Bool :=
  let required := lookupD conditions t []
  if required.isEmpty then false
  else required.all (fun c => lookupD facts c false)

/-- Flags for the four condition categories, assembled by the loop in
`evaluate_conditions`. -/
def evaluate_conditions (facts : List (String × Bool))
    (conditions : List (String × List String)) : EMNRFlags :=
  { entry := evalFlag facts conditions "entry",
    exit := evalFlag facts conditions "exit",
    strong := evalFlag facts conditions "strong",
    weak := evalFlag facts conditions "weak" }

/-- Execution plan attached to a trade idea (`ExecutionPlan` in
`backend/models.py`).  `riskPct` is a string in the source and is consumed
through `float(...)`; it is modelled by the outcome of that parse:
`some r` for a parseable value `r`, `none` when `float` raises `ValueError`. -/
structure ExecutionPlan where
  action : String
  riskPct : Option ℚ
deriving Repr, DecidableEq

/-- Embedding of the `TradeIdea` pydantic model (`backend/models.py`),
restricted to the fields the executor and the lifecycle routes read. -/
structure TradeIdea where
  id : String
  symbol : String
  confidence : ℤ
  direction : String
  entry_price : ℚ
  stop_loss : ℚ
  take_profit : ℚ
  volume : ℚ
  rr_ratio : ℚ
  execution_plan : ExecutionPlan
  status : String
deriving Repr, DecidableEq

/-- Venue symbol constraints, as read from the `get_symbol_info` dictionary
with the source's `.get` defaults. -/
structure SymbolInfo where
  volume_min : ℚ := 1/100
  volume_max : ℚ := 100
  volume_step : ℚ := 1/100
deriving Repr, DecidableEq

/-- Outcome of `mt5_client.place_order`: the source reads `result.get("success")`
and `result.get("order_id")` from the returned dictionary. -/
structure PlaceResult where
  success : Bool
  order_id : Option ℕ
deriving Repr, DecidableEq

/-- External collaborators of the executor.  Each call that the Python source
wraps in `try`/`except` is modelled with `Except Unit`: `.error ()` means the
call raised. -/
structure Env where
  /-- `risk_limits()` followed by `float(limits.get("daily_loss_limit_r", 0) or 0)`. -/
  riskLimits : Except Unit ℚ
  /-- `_calculate_daily_pnl()` from `backend/app.py`. -/
  dailyPnl : Except Unit ℚ
  /-- `mt5_client.get_symbol_info(sym)`: may raise, return a falsy value
  (`.ok none`), or return a constraints dictionary. -/
  symbolInfo : String → Except Unit (Option SymbolInfo)
  /-- `mt5_client.place_order(symbol, order_type, volume, sl, tp, ...)`. -/
  placeOrder : String → String → ℚ → ℚ → ℚ → Except Unit PlaceResult

/-- Violations appended by `validate_execution_safety`; each constructor
carries the data interpolated into the corresponding human-readable message. -/
inductive ExecError where
  | statusNotApproved (actual : String)
  | rrBelowMin (rr : ℚ)
  | confidenceBelowMin (c : ℤ)
  | invalidVolume (v : ℚ)
  | dailyLossReached (pnl limit : ℚ)
  | symbolNotFound (sym : String)
  | symbolInfoError
  | riskPctOutOfRange (r : ℚ)
  | invalidRiskPct
deriving Repr, DecidableEq

/-- Embedding of `ValidationResult` from `backend/ai/executor.py`. -/
structure ValidationResult where
  valid : Bool
  errors : List ExecError
deriving Repr, DecidableEq

/-- Daily-loss-limit block of `validate_execution_safety`.  The whole block is
inside one `try`; any exception while loading the limits or computing the
day's P&L is swallowed (no violation is appended). -/
def dailyLossErrors (env : Env) : List ExecError :=
  match env.riskLimits with
  | .error _ => []
  | .ok daily_limit =>
    if daily_limit > 0 then
      match env.dailyPnl with
      | .error _ => []
      | .ok current_pnl =>
        if current_pnl ≤ -|daily_limit| then
          [.dailyLossReached current_pnl daily_limit]
        else []
    else []

/-- Symbol-tradeability block of `validate_execution_safety`: a lookup
exception is itself recorded as a violation. -/
def symbolErrors (env : Env) (sym : String) : List ExecError :=
  match env.symbolInfo sym with
  | .error _ => [.symbolInfoError]
  | .ok none => [.symbolNotFound sym]
  | .ok (some _) => []

/-- Risk-percentage block of `validate_execution_safety`:
`float(idea.execution_plan.riskPct)` may raise `ValueError`. -/
def riskPctErrors (plan : ExecutionPlan) : List ExecError :=
  match plan.riskPct with
  | none => [.invalidRiskPct]
  | some risk_pct =>
    if risk_pct ≤ 0 ∨ risk_pct > 5 then [.riskPctOutOfRange risk_pct] else []

/-- Embedding of `TradeIdeaExecutor.validate_execution_safety`
(`backend/ai/executor.py`, lines 92–163): the seven checks each append to
one shared error list; `valid` is emptiness of that list. -/
def validate_execution_safety (idea : TradeIdea) (_account_balance : ℚ)
    (env : Env) : ValidationResult :=
  let errors :=
    (if idea.status ≠ "approved" then [ExecError.statusNotApproved idea.status] else [])
    ++ (if idea.rr_ratio < 2 then [ExecError.rrBelowMin idea.rr_ratio] else [])
    ++ (if idea.confidence < 75 then [ExecError.confidenceBelowMin idea.confidence] else [])
    ++ (if idea.volume ≤ 0 then [ExecError.invalidVolume idea.volume] else [])
    ++ dailyLossErrors env
    ++ symbolErrors env idea.symbol
    ++ riskPctErrors idea.execution_plan
  { valid := errors.isEmpty, errors := errors }

/-- Embedding of `TradeIdeaExecutor.calculate_position_size`
(`backend/ai/executor.py`, lines 165–215).  The body is one `try`/`except`
returning the suggested volume on any fault: an unparseable risk percentage,
a symbol-info exception, a falsy symbol info, or a zero volume step
(Python raises `ZeroDivisionError` on `volume / 0.0`). -/
def calculate_position_size (idea : TradeIdea) (_account_balance : ℚ)
    (env : Env) : ℚ :=
  match idea.execution_plan.riskPct with
  | none => idea.volume
  | some _ =>
    match env.symbolInfo idea.symbol with
    | .error _ => idea.volume
    | .ok none => idea.volume
    | .ok (some symbol_info) =>
      if symbol_info.volume_step = 0 then idea.volume
      else
        let volume := (pyRound (idea.volume / symbol_info.volume_step) : ℚ)
          * symbol_info.volume_step
        max symbol_info.volume_min (min symbol_info.volume_max volume)

/-- Reason carried by a failed `ExecutionResult`. -/
inductive ExecFailure where
  | validationFailed (errors : List ExecError)
  | venueRejected
  | exception
deriving Repr, DecidableEq

/-- Embedding of `ExecutionResult` from `backend/ai/executor.py`. -/
structure ExecutionResult where
  success : Bool
  order_id : Option ℕ := none
  failure : Option ExecFailure := none
deriving Repr, DecidableEq

/-- Embedding of `TradeIdeaExecutor.execute_trade_idea`
(`backend/ai/executor.py`, lines 217–282): validate, size, submit; a venue
exception is caught and reported as a failed result.  The executor itself
never touches `idea.status`. -/
def execute_trade_idea (idea : TradeIdea) (account_balance : ℚ)
    (env : Env) : ExecutionResult :=
  let validation := validate_execution_safety idea account_balance env
  if !validation.valid then
    { success := false, failure := some (.validationFailed validation.errors) }
  else
    let volume := calculate_position_size idea account_balance env
    let order_type := if idea.direction = "long" then "buy" else "sell"
    match env.placeOrder idea.symbol order_type volume idea.stop_loss idea.take_profit with
    | .error _ => { success := false, failure := some .exception }
    | .ok result =>
      if result.success then
        { success := true, order_id := result.order_id }
      else
        { success := false, failure := some .venueRejected }

/-- Typed errors raised by the in-memory lifecycle endpoints
(`HTTPException`s in `backend/ai_routes.py`); the `detail` strings carry the
states interpolated here. -/
inductive RouteError where
  | invalidState (required actual : String)
  | cannotReject (actual : String)
  | executionFailed (failure : Option ExecFailure)
deriving Repr, DecidableEq

/-- Embedding of the in-memory `approve_trade_idea` endpoint
(`backend/ai_routes.py`, lines 423–454): the idea must be `pending_approval`,
otherwise a 400 error naming the required and actual states is raised and the
idea is untouched.  The pair is (idea after the call, HTTP outcome). -/
def approve_route (idea : TradeIdea) : TradeIdea × Except RouteError Unit :=
  if idea.status ≠ "pending_approval" then
    (idea, .error (.invalidState "pending_approval" idea.status))
  else
    ({ idea with status := "approved" }, .ok ())

/-- Embedding of the in-memory `reject_trade_idea` endpoint
(`backend/ai_routes.py`): the idea must be `pending_approval` or `approved`. -/
def reject_route (idea : TradeIdea) : TradeIdea × Except RouteError Unit :=
  if idea.status ≠ "pending_approval" ∧ idea.status ≠ "approved" then
    (idea, .error (.cannotReject idea.status))
  else
    ({ idea with status := "rejected" }, .ok ())

/-- Embedding of the in-memory `execute_trade_idea` endpoint
(`backend/ai_routes.py`, lines 488–539): requires status `approved`, runs the
executor, and sets status to `executed` only when the executor reports
success; on failure it raises a 500 error, leaving the idea untouched. -/
def execute_route (idea : TradeIdea) (account_balance : ℚ) (env : Env) :
    TradeIdea × Except RouteError (Option ℕ) :=
  if idea.status ≠ "approved" then
    (idea, .error (.invalidState "approved" idea.status))
  else
    let result := execute_trade_idea idea account_balance env
    if result.success then
      ({ idea with status := "executed" }, .ok result.order_id)
    else
      (idea, .error (.executionFailed result.failure))

/-- Manual overrides payload: the file-based approve endpoint applies only
the keys `entry_price`, `stop_loss`, `take_profit`, `volume`. -/
structure Overrides where
  entry_price : Option ℚ := none
  stop_loss : Option ℚ := none
  take_profit : Option ℚ := none
  volume : Option ℚ := none
deriving Repr, DecidableEq

/-- Trade idea as stored in a JSON file and manipulated by
`backend/trade_approval_routes.py` (`TradeIdeaDetail`): price/volume fields
are optional, plus approval/cancellation metadata. -/
structure StoredIdea where
  status : String
  entry_price : Option ℚ := none
  stop_loss : Option ℚ := none
  take_profit : Option ℚ := none
  volume : Option ℚ := none
  rr_ratio : Option ℚ := none
  approval_status : Option String := none
  approved_by : Option String := none
  approved_at : Option String := none
  cancelled_at : Option String := none
  manual_overrides : Option Overrides := none
  notes : Option String := none
deriving Repr, DecidableEq

/-- Dictionary update `d[k] = v` restricted to the keys the override loop
touches: a provided value replaces the stored one, an absent key keeps it. -/
def applyOv (new old : Option ℚ) : Option ℚ :=
  match new with
  | some v => some v
  | none => old

/-- Embedding of the file-based `approve_trade_idea` endpoint
(`backend/trade_approval_routes.py`, lines 232–284).  With the idea found and
the save succeeding, the endpoint unconditionally stamps the approval
metadata, applies the manual overrides to the four recognised fields, flips
`status` to `approved` only when it was still `pending_approval`, and returns
`success = true`.  No state is checked and `rr_ratio` is never recomputed. -/
def approve_trade_idea_file (idea : StoredIdea) (overrides : Option Overrides)
    (approved_by now : String) : StoredIdea × Bool :=
  let idea := { idea with approval_status := some "approved",
                          approved_by := some approved_by,
                          approved_at := some now }
  let idea :=
    match overrides with
    | none => idea
    | some ov =>
      { idea with manual_overrides := some ov,
                  entry_price := applyOv ov.entry_price idea.entry_price,
                  stop_loss := applyOv ov.stop_loss idea.stop_loss,
                  take_profit := applyOv ov.take_profit idea.take_profit,
                  volume := applyOv ov.volume idea.volume }
  let idea :=
    if idea.status = "pending_approval" then { idea with status := "approved" }
    else idea
  (idea, true)

/-- Embedding of the file-based `cancel_trade_idea` endpoint
(`backend/trade_approval_routes.py`, lines 414–446): with the idea found and
the save succeeding, it sets `status` to `cancelled` whatever the current
state and returns `success = true`. -/
def cancel_trade_idea_file (idea : StoredIdea) (now : String) :
    StoredIdea × Bool :=
  ({ idea with status := "cancelled", cancelled_at := some now }, true)

/-- Payload of the file-based `modify_trade_idea` endpoint. -/
structure ModifyRequest where
  entry_price : Option ℚ := none
  stop_loss : Option ℚ := none
  take_profit : Option ℚ := none
  volume : Option ℚ := none
  notes : Option String := none
deriving Repr, DecidableEq

/-- Embedding of the file-based `modify_trade_idea` endpoint
(`backend/trade_approval_routes.py`, lines 330–412): apply the provided
fields, merge them into `manual_overrides` (the `notes` key and the
`modified_at` timestamp of that audit dictionary are not modelled), and when
a price field was modified and entry, stop and target are all present and
non-zero (Python truthiness) with a positive risk distance, recompute
`rr_ratio = round(|target − entry| / |entry − stop|, 2)`. -/
def modify_trade_idea_file (idea : StoredIdea) (req : ModifyRequest) :
    StoredIdea × Bool :=
  let priceModified :=
    req.entry_price.isSome || req.stop_loss.isSome || req.take_profit.isSome
  let mo :=
    match idea.manual_overrides with
    | some m => m
    | none => {}
  let mo := { entry_price := applyOv req.entry_price mo.entry_price,
              stop_loss := applyOv req.stop_loss mo.stop_loss,
              take_profit := applyOv req.take_profit mo.take_profit,
              volume := applyOv req.volume mo.volume : Overrides }
  let idea :=
    { idea with manual_overrides := some mo,
                entry_price := applyOv req.entry_price idea.entry_price,
                stop_loss := applyOv req.stop_loss idea.stop_loss,
                take_profit := applyOv req.take_profit idea.take_profit,
                volume := applyOv req.volume idea.volume,
                notes :=
                  match req.notes with
                  | some n => some n
                  | none => idea.notes }
  let idea :=
    if priceModified then
      match idea.entry_price, idea.stop_loss, idea.take_profit with
      | some entry, some sl, some tp =>
        if entry ≠ 0 ∧ sl ≠ 0 ∧ tp ≠ 0 then
          let risk := |entry - sl|
          if risk > 0 then
            { idea with rr_ratio := some (roundDp 2 (|tp - entry| / risk)) }
          else idea
        else idea
      | _, _, _ => idea
    else idea
  (idea, true)

/-- Embedding of `AIEngine._calculate_sl_tp` (`backend/ai/engine.py`,
lines 291–328).  The three dictionary accesses (`indicators.get("atr", 0.0)`,
`profile.management.get("atrMultiplier", 1.5)`, `profile.style.get("rrTarget",
2.0)`) are inside one `try`; any fault falls back to the fixed −1%/+2%
stop/target (mirrored for short) with ratio 2.0.  All prices are rounded to
5 decimal places and the ratio to 2. -/
def calculate_sl_tp (entry_price : ℚ) (direction : String)
    (atr : Except Unit ℚ) (atrMultiplier : Except Unit ℚ)
    (rrTarget : Except Unit ℚ) : ℚ × ℚ × ℚ :=
  match atr, atrMultiplier, rrTarget with
  | .ok a, .ok mult, .ok rrT =>
    let sl_price := if direction = "long" then entry_price - a * mult
                    else entry_price + a * mult
    let tp_price := if direction = "long" then entry_price + a * mult * rrT
                    else entry_price - a * mult * rrT
    let risk := |entry_price - sl_price|
    let reward := |tp_price - entry_price|
    let rr_ratio := if risk > 0 then reward / risk else 0
    (roundDp 5 sl_price, roundDp 5 tp_price, roundDp 2 rr_ratio)
  | _, _, _ =>
    let sl_price := if direction = "long" then entry_price * (99/100)
                    else entry_price * (101/100)
    let tp_price := if direction = "long" then entry_price * (102/100)
                    else entry_price * (98/100)
    (roundDp 5 sl_price, roundDp 5 tp_price, 2)

/-- Stop level exactly as worded in §4.3 of the spec:
price ∓ (volatility × multiplier), minus for long, plus for short. -/
def spec_stop (entry_price : ℚ) (direction : String) (vol mult : ℚ) : ℚ :=
  if direction = "long" then entry_price - vol * mult
  else entry_price + vol * mult

/-- Target level exactly as worded in §4.3 of the spec:
price ± (volatility × multiplier × target ratio). -/
def spec_target (entry_price : ℚ) (direction : String) (vol mult ratio : ℚ) : ℚ :=
  if direction = "long" then entry_price + vol * mult * ratio
  else entry_price - vol * mult * ratio

/-- Reward:risk ratio exactly as worded in §4.3 of the spec:
|target − price| / |price − stop|, and 0 when the risk distance is 0. -/
def spec_ratio (entry_price sl tp : ℚ) : ℚ :=
  if |entry_price - sl| = 0 then 0 else |tp - entry_price| / |entry_price - sl|

/-- Concrete trade idea used by scenario E: approved, confidence 60,
rr_ratio 2.5, volume 0.1, riskPct 1.0. -/
def ideaE : TradeIdea :=
  { id := "idea-1", symbol := "EURUSD", confidence := 60, direction := "long",
    entry_price := 1, stop_loss := 9/10, take_profit := 6/5, volume := 1/10,
    rr_ratio := 5/2,
    execution_plan := { action := "pending_only", riskPct := some 1 },
    status := "approved" }

/-- Same idea at confidence 80 (passes every validator check). -/
def ideaHigh : TradeIdea := { ideaE with confidence := 80 }

/-- Well-behaved environment: limits load, P&L is 0, the symbol resolves,
orders are accepted. -/
def envOk : Env :=
  { riskLimits := .ok 3, dailyPnl := .ok 0,
    symbolInfo := fun _ => .ok (some {}),
    placeOrder := fun _ _ _ _ _ => .ok { success := true, order_id := some 42 } }

/-- Environment whose risk-limit load raises. -/
def envRiskThrow : Env := { envOk with riskLimits := .error () }

/-- An already-rejected idea (terminal state). -/
def ideaRejected : TradeIdea := { ideaE with status := "rejected" }

/-- A stored (file-based) idea still pending approval, with consistent
prices: entry 1, stop 0.9, target 1.2, so rr_ratio = 2. -/
def storedPending : StoredIdea :=
  { status := "pending_approval", entry_price := some 1,
    stop_loss := some (9/10), take_profit := some (6/5),
    volume := some (1/10), rr_ratio := some 2 }

/-- C4: for every combination of the four EMNR flags, the alignment boolean
and an integer penalty, `confidence_score` returns exactly
clamp(30·[entry] + 25·[strong] − 15·[weak] − 40·[exit] + 10·[align] + penalty,
0, 100), and in particular the score always lies in [0, 100]. -/
theorem confidence_score_weight_table (flags : EMNRFlags) (align_ok : Bool)
    (p : ℤ) :
    confidence_score flags align_ok p =
      max 0 (min 100 (30 * ind flags.entry + 25 * ind flags.strong
        - 15 * ind flags.weak - 40 * ind flags.exit + 10 * ind align_ok + p)) ∧
    0 ≤ confidence_score flags align_ok p ∧
    confidence_score flags align_ok p ≤ 100 := by
  rcases flags with ⟨e, x, s, w⟩
  cases e <;> cases x <;> cases s <;> cases w <;> cases align_ok <;>
    simp only [confidence_score, ind, eq_self_iff_true, Bool.false_eq_true,
      if_true, if_false] <;>
    refine ⟨by omega, by omega, by omega⟩

/-- C5 counterexample: at confidence 60 with risk cap 0.003 the scheduler
returns riskPct 0.002 (the source renders `min(cap/2, 0.02)` with `%.3f`),
not min(0.003/2, 0.02) = 0.0015 as the claim states. -/
theorem schedule_action_riskpct_cex :
    (schedule_action 60 true (3/1000)).riskPct ≠ min ((3/1000 : ℚ) / 2) (2/100) := by
  have hmin : min ((3/1000 : ℚ) / 2) (2/100) = 3/2000 := by
    rw [min_eq_left] <;> norm_num
  have hpr : pyRound ((3/2000 : ℚ) * 10 ^ 3) = 2 := by
    unfold pyRound
    norm_num
  have hrd : (schedule_action 60 true (3/1000)).riskPct = 1/500 := by
    simp only [schedule_action]
    rw [if_neg (by omega), if_pos (by omega)]
    simp only [roundDp, hmin, hpr]
    norm_num
  rw [hrd, hmin]
  norm_num

/-- C5 (amended): the scheduler is a pure function of (confidence,
rr-adequate, risk cap) with tiers exactly at 60 and 75: confidence < 60 gives
observe with riskPct 0; 60 ≤ confidence ≤ 74 gives pending_only with riskPct
min(cap/2, 0.02) rounded to 3 decimals; confidence ≥ 75 gives wait_rr with
riskPct 0 when rr is inadequate, else open_or_scale with riskPct the cap
rounded to 3 decimals. -/
theorem schedule_action_tiers (c : ℤ) (rr : Bool) (cap : ℚ) :
    (c < 60 → schedule_action c rr cap = ⟨"observe", 0⟩) ∧
    (60 ≤ c → c ≤ 74 → schedule_action c rr cap =
      ⟨"pending_only", roundDp 3 (min (cap / 2) (2/100))⟩) ∧
    (75 ≤ c → rr = false → schedule_action c rr cap = ⟨"wait_rr", 0⟩) ∧
    (75 ≤ c → rr = true → schedule_action c rr cap =
      ⟨"open_or_scale", roundDp 3 cap⟩) := by
  refine ⟨fun h => ?_, fun h1 h2 => ?_, fun h hrr => ?_, fun h hrr => ?_⟩
  · simp only [schedule_action]
    rw [if_pos h]
  · simp only [schedule_action]
    rw [if_neg (by omega), if_pos (by omega)]
  · subst hrr
    simp only [schedule_action]
    rw [if_neg (by omega), if_neg (by omega)]
    simp
  · subst hrr
    simp only [schedule_action]
    rw [if_neg (by omega), if_neg (by omega)]
    simp

/-- C5 witness: scenario A's scheduling step, confidence 60 with cap 0.03. -/
theorem schedule_action_tiers_witness :
    schedule_action 60 true (3/100) =
      ⟨"pending_only", roundDp 3 (min ((3/100 : ℚ) / 2) (2/100))⟩ :=
  (schedule_action_tiers 60 true (3/100)).2.1 (by norm_num) (by norm_num)

/-- Characterisation of one EMNR category flag. -/
theorem evalFlag_spec (facts : List (String × Bool))
    (conditions : List (String × List String)) (t : String) :
    (evalFlag facts conditions t = true ↔
      lookupD conditions t [] ≠ [] ∧
      ∀ n ∈ lookupD conditions t [], lookupD facts n false = true) := by
  unfold evalFlag
  cases h : lookupD conditions t [] <;> simp [h, List.all_eq_true]

/-- C6: for every FactSet and conditions mapping, each of the four flags is
true exactly when its condition list is non-empty (an empty or missing list
gives false) and every listed fact is present and true (a missing fact reads
false); the evaluator is a total function of its inputs. -/
theorem evaluate_conditions_spec (facts : List (String × Bool))
    (conditions : List (String × List String)) :
    ((evaluate_conditions facts conditions).entry = true ↔
      lookupD conditions "entry" [] ≠ [] ∧
      ∀ n ∈ lookupD conditions "entry" [], lookupD facts n false = true) ∧
    ((evaluate_conditions facts conditions).exit = true ↔
      lookupD conditions "exit" [] ≠ [] ∧
      ∀ n ∈ lookupD conditions "exit" [], lookupD facts n false = true) ∧
    ((evaluate_conditions facts conditions).strong = true ↔
      lookupD conditions "strong" [] ≠ [] ∧
      ∀ n ∈ lookupD conditions "strong" [], lookupD facts n false = true) ∧
    ((evaluate_conditions facts conditions).weak = true ↔
      lookupD conditions "weak" [] ≠ [] ∧
      ∀ n ∈ lookupD conditions "weak" [], lookupD facts n false = true) :=
  ⟨evalFlag_spec facts conditions "entry", evalFlag_spec facts conditions "exit",
   evalFlag_spec facts conditions "strong", evalFlag_spec facts conditions "weak"⟩

/-- Membership in a conditional singleton. -/
theorem mem_ite_singleton {c : Prop} [Decidable c] (a b : ExecError) :
    (a ∈ if c then [b] else []) ↔ c ∧ a = b := by
  split <;> simp [*]

/-- Membership in the daily-loss block of the validator. -/
theorem mem_dailyLossErrors (e : ExecError) (env : Env) :
    e ∈ dailyLossErrors env ↔
      ∃ l p, env.riskLimits = .ok l ∧ l > 0 ∧ env.dailyPnl = .ok p ∧
        p ≤ -|l| ∧ e = .dailyLossReached p l := by
  unfold dailyLossErrors
  cases hR : env.riskLimits with
  | error u => simp [hR]
  | ok l =>
    dsimp only
    by_cases hl : l > 0
    · rw [if_pos hl]
      cases hP : env.dailyPnl with
      | error u => simp [hR, hP]
      | ok p =>
        dsimp only
        by_cases hp : p ≤ -|l|
        · rw [if_pos hp]
          simp [hR, hP, hl, hp]
        · rw [if_neg hp]
          simp [hR, hP, hp]
    · rw [if_neg hl]
      simp [hR, hl]

/-- Membership in the symbol-tradeability block of the validator. -/
theorem mem_symbolErrors (e : ExecError) (env : Env) (sym : String) :
    e ∈ symbolErrors env sym ↔
      (env.symbolInfo sym = .error () ∧ e = .symbolInfoError) ∨
      (env.symbolInfo sym = .ok none ∧ e = .symbolNotFound sym) := by
  unfold symbolErrors
  cases h : env.symbolInfo sym with
  | error u => cases u; simp [h]
  | ok o => cases o <;> simp [h]

/-- Membership in the risk-percentage block of the validator. -/
theorem mem_riskPctErrors (e : ExecError) (plan : ExecutionPlan) :
    e ∈ riskPctErrors plan ↔
      (plan.riskPct = none ∧ e = .invalidRiskPct) ∨
      (∃ r, plan.riskPct = some r ∧ (r ≤ 0 ∨ r > 5) ∧
        e = .riskPctOutOfRange r) := by
  unfold riskPctErrors
  cases h : plan.riskPct with
  | none => simp [h]
  | some r =>
    dsimp only
    by_cases hr : r ≤ 0 ∨ r > 5
    · rw [if_pos hr]
      simp [h, hr]
    · rw [if_neg hr]
      simp [h, hr]

/-- Full characterisation of the validator's error list. -/
theorem mem_validate_errors (e : ExecError) (idea : TradeIdea) (bal : ℚ)
    (env : Env) :
    e ∈ (validate_execution_safety idea bal env).errors ↔
      (idea.status ≠ "approved" ∧ e = .statusNotApproved idea.status) ∨
      (idea.rr_ratio < 2 ∧ e = .rrBelowMin idea.rr_ratio) ∨
      (idea.confidence < 75 ∧ e = .confidenceBelowMin idea.confidence) ∨
      (idea.volume ≤ 0 ∧ e = .invalidVolume idea.volume) ∨
      e ∈ dailyLossErrors env ∨
      e ∈ symbolErrors env idea.symbol ∨
      e ∈ riskPctErrors idea.execution_plan := by
  simp [validate_execution_safety, List.mem_append, mem_ite_singleton, or_assoc]

/-- C1: the execution safety validator evaluates its checks independently
(each violation is reported exactly when its own condition fails, whatever
the other fields do) and, for an approved idea with confidence 60,
rr_ratio 2.5, volume 0.1, riskPct 1.0, a resolving symbol and the daily loss
limit not reached, returns valid = false with exactly the single
confidence-below-75 violation. -/
theorem validate_collects_all_scenario_E :
    (∀ idea bal env, ExecError.confidenceBelowMin idea.confidence ∈
        (validate_execution_safety idea bal env).errors ↔
      idea.confidence < 75) ∧
    (∀ idea bal env, ExecError.rrBelowMin idea.rr_ratio ∈
        (validate_execution_safety idea bal env).errors ↔
      idea.rr_ratio < 2) ∧
    (∀ idea bal env, ExecError.statusNotApproved idea.status ∈
        (validate_execution_safety idea bal env).errors ↔
      idea.status ≠ "approved") ∧
    (∀ (idea : TradeIdea) (bal : ℚ) (env : Env) (limit pnl : ℚ)
        (info : SymbolInfo),
      idea.status = "approved" → idea.confidence = 60 → idea.rr_ratio = 5/2 →
      idea.volume = 1/10 → idea.execution_plan.riskPct = some 1 →
      env.riskLimits = .ok limit → env.dailyPnl = .ok pnl → -|limit| < pnl →
      env.symbolInfo idea.symbol = .ok (some info) →
      validate_execution_safety idea bal env =
        { valid := false, errors := [.confidenceBelowMin 60] }) := by
  refine ⟨?_, ?_, ?_, ?_⟩
  · intro idea bal env
    simp [mem_validate_errors, mem_dailyLossErrors, mem_symbolErrors,
      mem_riskPctErrors]
  · intro idea bal env
    simp [mem_validate_errors, mem_dailyLossErrors, mem_symbolErrors,
      mem_riskPctErrors]
  · intro idea bal env
    simp [mem_validate_errors, mem_dailyLossErrors, mem_symbolErrors,
      mem_riskPctErrors]
  · intro idea bal env limit pnl info h1 h2 h3 h4 h5 h6 h7 h8 h9
    have hd : dailyLossErrors env = [] := by
      unfold dailyLossErrors
      rw [h6]
      dsimp only
      by_cases hl : limit > 0
      · rw [if_pos hl, h7]
        dsimp only
        rw [if_neg (by linarith)]
      · rw [if_neg hl]
    have hs : symbolErrors env idea.symbol = [] := by
      unfold symbolErrors
      rw [h9]
    have hr : riskPctErrors idea.execution_plan = [] := by
      unfold riskPctErrors
      rw [h5]
      dsimp only
      rw [if_neg (by norm_num)]
    simp only [validate_execution_safety, hd, hs, hr, h1, h2, h3, h4]
    norm_num [List.isEmpty]

/-- C1 witness: scenario E at the concrete idea `ideaE` in `envOk`. -/
theorem validate_collects_all_scenario_E_witness :
    validate_execution_safety ideaE 10000 envOk =
      { valid := false, errors := [.confidenceBelowMin 60] } :=
  validate_collects_all_scenario_E.2.2.2 ideaE 10000 envOk 3 0 {}
    rfl rfl rfl rfl rfl rfl rfl (by norm_num) rfl

/-- C10: the daily-loss safety check fails open — an exception while loading
the risk limits or computing the day's P&L is swallowed, so no daily-loss
violation can be reported and validation can still return valid = true; in
contrast, a symbol-lookup exception is itself recorded as a violation. -/
theorem daily_loss_check_fails_open :
    (∀ (idea : TradeIdea) (bal : ℚ) (env : Env) (pnl limit : ℚ),
      env.riskLimits = .error () →
      ExecError.dailyLossReached pnl limit ∉
        (validate_execution_safety idea bal env).errors) ∧
    (∀ (idea : TradeIdea) (bal : ℚ) (env : Env) (pnl limit : ℚ),
      env.dailyPnl = .error () →
      ExecError.dailyLossReached pnl limit ∉
        (validate_execution_safety idea bal env).errors) ∧
    (∀ (idea : TradeIdea) (bal : ℚ) (env : Env),
      env.symbolInfo idea.symbol = .error () →
      ExecError.symbolInfoError ∈
        (validate_execution_safety idea bal env).errors) ∧
    (∀ (idea : TradeIdea) (bal : ℚ) (env : Env),
      env.riskLimits = .error () →
      idea.status = "approved" → 2 ≤ idea.rr_ratio → 75 ≤ idea.confidence →
      0 < idea.volume →
      (∃ info, env.symbolInfo idea.symbol = .ok (some info)) →
      (∃ r, idea.execution_plan.riskPct = some r ∧ 0 < r ∧ r ≤ 5) →
      (validate_execution_safety idea bal env).valid = true) := by
  refine ⟨?_, ?_, ?_, ?_⟩
  · intro idea bal env pnl limit h
    simp [mem_validate_errors, mem_dailyLossErrors, mem_symbolErrors,
      mem_riskPctErrors, h]
  · intro idea bal env pnl limit h
    simp [mem_validate_errors, mem_dailyLossErrors, mem_symbolErrors,
      mem_riskPctErrors, h]
  · intro idea bal env h
    simp [mem_validate_errors, mem_symbolErrors, h]
  · intro idea bal env hR h1 h2 h3 h4 hinfo hrisk
    obtain ⟨info, h5⟩ := hinfo
    obtain ⟨r, h6, h7, h8⟩ := hrisk
    have hd : dailyLossErrors env = [] := by
      unfold dailyLossErrors
      rw [hR]
    have hs : symbolErrors env idea.symbol = [] := by
      unfold symbolErrors
      rw [h5]
    have hr : riskPctErrors idea.execution_plan = [] := by
      unfold riskPctErrors
      rw [h6]
      dsimp only
      rw [if_neg (by push_neg; exact ⟨h7, h8⟩)]
    simp only [validate_execution_safety, hd, hs, hr, h1]
    rw [if_neg (by simp), if_neg (by linarith), if_neg (by omega),
      if_neg (by linarith)]
    rfl

/-- C10 witness: in `envRiskThrow` (risk-limit load raises) the otherwise
clean idea `ideaHigh` validates as valid = true. -/
theorem daily_loss_check_fails_open_witness :
    (validate_execution_safety ideaHigh 10000 envRiskThrow).valid = true :=
  daily_loss_check_fails_open.2.2.2 ideaHigh 10000 envRiskThrow rfl rfl
    (by norm_num [ideaHigh, ideaE]) (by norm_num [ideaHigh, ideaE])
    (by norm_num [ideaHigh, ideaE]) ⟨{}, rfl⟩
    ⟨1, rfl, by norm_num, by norm_num⟩

/-- Executor success is exactly a passed validation followed by an accepted
venue submission. -/
theorem execute_success_iff (idea : TradeIdea) (bal : ℚ) (env : Env) :
    (execute_trade_idea idea bal env).success = true ↔
      (validate_execution_safety idea bal env).valid = true ∧
      ∃ r, env.placeOrder idea.symbol
          (if idea.direction = "long" then "buy" else "sell")
          (calculate_position_size idea bal env)
          idea.stop_loss idea.take_profit = .ok r ∧ r.success = true := by
  unfold execute_trade_idea
  by_cases hv : (validate_execution_safety idea bal env).valid = true
  · simp only [hv, Bool.not_true, Bool.false_eq_true, if_false]
    cases hp : env.placeOrder idea.symbol
        (if idea.direction = "long" then "buy" else "sell")
        (calculate_position_size idea bal env)
        idea.stop_loss idea.take_profit with
    | error u => simp
    | ok r =>
      dsimp only
      by_cases hs : r.success = true
      · simp [hs]
      · simp [hs]
  · have hv' : (validate_execution_safety idea bal env).valid = false := by
      revert hv
      cases (validate_execution_safety idea bal env).valid <;> simp
    simp [hv']

/-- C2: starting from an approved idea, the execute endpoint sets the status
to `executed` exactly when the executor succeeds (validation passed and the
venue accepted the order); on any failure — validation, venue rejection, or a
submission exception — the idea is returned unchanged, still `approved`. -/
theorem execute_route_status (idea : TradeIdea) (bal : ℚ) (env : Env)
    (h : idea.status = "approved") :
    ((execute_route idea bal env).1.status = "executed" ↔
      (execute_trade_idea idea bal env).success = true) ∧
    ((execute_trade_idea idea bal env).success = true ↔
      (validate_execution_safety idea bal env).valid = true ∧
      ∃ r, env.placeOrder idea.symbol
          (if idea.direction = "long" then "buy" else "sell")
          (calculate_position_size idea bal env)
          idea.stop_loss idea.take_profit = .ok r ∧ r.success = true) ∧
    ((execute_trade_idea idea bal env).success = false →
      (execute_route idea bal env).1 = idea ∧
      (execute_route idea bal env).1.status = "approved") := by
  have hroute : execute_route idea bal env =
      (if (execute_trade_idea idea bal env).success then
        ({ idea with status := "executed" },
          .ok (execute_trade_idea idea bal env).order_id)
      else (idea, .error (.executionFailed (execute_trade_idea idea bal env).failure))) := by
    unfold execute_route
    rw [if_neg (by simp [h])]
  refine ⟨?_, execute_success_iff idea bal env, ?_⟩
  · rw [hroute]
    by_cases hs : (execute_trade_idea idea bal env).success = true
    · simp [hs]
    · have hs' : (execute_trade_idea idea bal env).success = false := by
        revert hs
        cases (execute_trade_idea idea bal env).success <;> simp
      simp [hs', h]
  · intro hs
    rw [hroute, hs]
    simp [h]

/-- C2 witness: `ideaHigh` in `envOk` executes successfully, moving to
`executed`. -/
theorem execute_route_status_witness :
    ((execute_route ideaHigh 10000 envOk).1.status = "executed" ↔
      (execute_trade_idea ideaHigh 10000 envOk).success = true) :=
  (execute_route_status ideaHigh 10000 envOk rfl).1

/-- C9: position sizing returns a suggested volume unchanged whenever the
venue constraints resolve, the volume step is positive, and the volume is an
exact integer multiple of the step lying within [min volume, max volume]. -/
theorem position_size_idempotent (idea : TradeIdea) (bal : ℚ) (env : Env)
    (info : SymbolInfo) (k : ℤ)
    (hinfo : env.symbolInfo idea.symbol = .ok (some info))
    (hstep : 0 < info.volume_step)
    (hmult : idea.volume = (k : ℚ) * info.volume_step)
    (hmin : info.volume_min ≤ idea.volume)
    (hmax : idea.volume ≤ info.volume_max) :
    calculate_position_size idea bal env = idea.volume := by
  unfold calculate_position_size
  cases hrp : idea.execution_plan.riskPct with
  | none => rfl
  | some r =>
    dsimp only
    rw [hinfo]
    dsimp only
    rw [if_neg (ne_of_gt hstep)]
    have h1 : idea.volume / info.volume_step = (k : ℚ) := by
      rw [hmult]
      field_simp
    rw [h1, pyRound_intCast, ← hmult, min_eq_right hmax, max_eq_right hmin]

/-- C9 witness: volume 0.1 with step 0.01 (so 10 steps), inside [0.01, 100],
is returned unchanged. -/
theorem position_size_idempotent_witness :
    calculate_position_size ideaE 10000 envOk = ideaE.volume :=
  position_size_idempotent ideaE 10000 envOk {} 10 rfl (by norm_num)
    (by norm_num [ideaE]) (by norm_num [ideaE]) (by norm_num [ideaE])

/-- C3 counterexample: cancelling an already-executed idea through the
file-based cancel endpoint does not fail — it reports success and rewrites
the status to `cancelled`, contradicting the claim that every transition not
listed in §4.6 fails with a typed error and leaves the idea unchanged. -/
theorem cancel_executed_succeeds_cex :
    (cancel_trade_idea_file { status := "executed" } "T").2 = true ∧
    (cancel_trade_idea_file { status := "executed" } "T").1.status = "cancelled" :=
  ⟨rfl, rfl⟩

/-- C3 (amended): the in-memory endpoints (`ai_routes`) reject invalid
transitions with a typed error carrying the required and actual states and
leave the idea unchanged; the file-based approve and cancel endpoints perform
no state check at all — approve reports success from any state (flipping
`status` only when it was `pending_approval`) and cancel reports success and
sets `cancelled` from any state, including `executed`. -/
theorem lifecycle_invalid_transitions (idea : TradeIdea) (s : StoredIdea)
    (bal : ℚ) (env : Env) (ov : Option Overrides) (u t : String) :
    (idea.status ≠ "pending_approval" →
      approve_route idea =
        (idea, .error (.invalidState "pending_approval" idea.status))) ∧
    (idea.status ≠ "pending_approval" → idea.status ≠ "approved" →
      reject_route idea = (idea, .error (.cannotReject idea.status))) ∧
    (idea.status ≠ "approved" →
      execute_route idea bal env =
        (idea, .error (.invalidState "approved" idea.status))) ∧
    (approve_trade_idea_file s ov u t).2 = true ∧
    (cancel_trade_idea_file s t).2 = true ∧
    (cancel_trade_idea_file s t).1.status = "cancelled" := by
  refine ⟨fun h => ?_, fun h1 h2 => ?_, fun h => ?_, ?_, rfl, rfl⟩
  · unfold approve_route
    rw [if_pos h]
  · unfold reject_route
    rw [if_pos ⟨h1, h2⟩]
  · unfold execute_route
    rw [if_pos h]
  · cases ov <;> rfl

/-- C3 witness: approving the rejected idea `ideaRejected` through the
in-memory endpoint fails with the typed required-vs-actual error. -/
theorem lifecycle_invalid_transitions_witness :
    approve_route ideaRejected =
      (ideaRejected, .error (.invalidState "pending_approval" "rejected")) :=
  (lifecycle_invalid_transitions ideaRejected { status := "executed" } 0 envOk
    none "u" "T").1 (by simp [ideaRejected, ideaE])

/-- C7 counterexample: approving `storedPending` with a take-profit override
of 1.5 leaves rr_ratio at its stored value 2, although the ratio recomputed
from the overridden prices, |1.5 − 1| / |1 − 0.9|, is 5 — the approve
endpoint never recomputes the reward:risk ratio. -/
theorem approve_no_rr_recompute_cex :
    (approve_trade_idea_file storedPending
        (some { take_profit := some (3/2) }) "user" "T").1.rr_ratio = some 2 ∧
    (2 : ℚ) ≠ |(3/2 : ℚ) - 1| / |(1 : ℚ) - 9/10| := by
  constructor
  · rfl
  · rw [show (3/2 : ℚ) - 1 = 1/2 by norm_num,
      show (1 : ℚ) - 9/10 = 1/10 by norm_num,
      abs_of_pos (by norm_num : (0:ℚ) < 1/2),
      abs_of_pos (by norm_num : (0:ℚ) < 1/10)]
    norm_num

/-- C7 (amended): the approve endpoint applies manual overrides to
entry/stop/target/volume but leaves rr_ratio untouched; reward:risk is
recomputed from overridden prices — as round(|target − entry| /
|entry − stop|, 2) — only by the separate modify endpoint, when a price field
is modified, entry/stop/target are all present and non-zero, and the risk
distance is positive. -/
theorem approve_applies_overrides_modify_recomputes :
    (∀ (s : StoredIdea) (ov : Overrides) (u t : String),
      (approve_trade_idea_file s (some ov) u t).1.entry_price =
        applyOv ov.entry_price s.entry_price ∧
      (approve_trade_idea_file s (some ov) u t).1.stop_loss =
        applyOv ov.stop_loss s.stop_loss ∧
      (approve_trade_idea_file s (some ov) u t).1.take_profit =
        applyOv ov.take_profit s.take_profit ∧
      (approve_trade_idea_file s (some ov) u t).1.volume =
        applyOv ov.volume s.volume ∧
      (approve_trade_idea_file s (some ov) u t).1.rr_ratio = s.rr_ratio) ∧
    (∀ (s : StoredIdea) (req : ModifyRequest) (entry sl tp : ℚ),
      (req.entry_price.isSome = true ∨ req.stop_loss.isSome = true ∨
        req.take_profit.isSome = true) →
      applyOv req.entry_price s.entry_price = some entry →
      applyOv req.stop_loss s.stop_loss = some sl →
      applyOv req.take_profit s.take_profit = some tp →
      entry ≠ 0 → sl ≠ 0 → tp ≠ 0 → |entry - sl| > 0 →
      (modify_trade_idea_file s req).1.rr_ratio =
        some (roundDp 2 (|tp - entry| / |entry - sl|))) := by
  constructor
  · intro s ov u t
    unfold approve_trade_idea_file
    dsimp only
    by_cases hs : s.status = "pending_approval" <;> simp [hs]
  · intro s req entry sl tp hmod h1 h2 h3 hz1 hz2 hz3 hrisk
    have hpm : (req.entry_price.isSome || req.stop_loss.isSome ||
        req.take_profit.isSome) = true := by
      rcases hmod with h | h | h <;> simp [h]
    unfold modify_trade_idea_file
    dsimp only
    rw [if_pos hpm, h1, h2, h3]
    dsimp only
    rw [if_pos ⟨hz1, hz2, hz3⟩, if_pos hrisk]

/-- C7 witness: modifying `storedPending`'s take-profit to 1.5 recomputes
rr_ratio from the overridden prices. -/
theorem approve_applies_overrides_modify_recomputes_witness :
    (modify_trade_idea_file storedPending
        { take_profit := some (3/2) }).1.rr_ratio =
      some (roundDp 2 (|(3/2 : ℚ) - 1| / |(1 : ℚ) - 9/10|)) :=
  approve_applies_overrides_modify_recomputes.2 storedPending
    { take_profit := some (3/2) } 1 (9/10) (3/2)
    (Or.inr (Or.inr rfl)) rfl rfl rfl (by norm_num) (by norm_num)
    (by norm_num) (by rw [gt_iff_lt, abs_pos]; norm_num)

/-- Division guard written with `> 0` (source) agrees with the spec's
"ratio := 0 when the risk distance is 0" phrasing. -/
theorem guard_ratio_eq (risk reward : ℚ) (h : 0 ≤ risk) :
    (if risk > 0 then reward / risk else 0) =
      (if risk = 0 then 0 else reward / risk) := by
  by_cases hz : risk = 0
  · rw [if_pos hz, hz, if_neg (lt_irrefl 0)]
  · rw [if_pos (lt_of_le_of_ne h (Ne.symm hz)), if_neg hz]

/-- C8 counterexample: with entry 1, volatility 1/3, multiplier 1 the code
returns stop 0.66667 (the exact 2/3 rounded to 5 decimal places), not
1 − 1/3·1 = 2/3 as the claim's formula states. -/
theorem sl_tp_rounding_cex :
    (calculate_sl_tp 1 "long" (.ok (1/3)) (.ok 1) (.ok 2)).1 ≠
      1 - (1/3 : ℚ) * 1 := by
  have h : (calculate_sl_tp 1 "long" (.ok (1/3)) (.ok 1) (.ok 2)).1 =
      66667/100000 := by
    unfold calculate_sl_tp
    dsimp only
    rw [if_pos rfl]
    unfold roundDp pyRound
    norm_num
  rw [h]
  norm_num

/-- C8 (amended): for both directions the non-degraded path returns exactly
the spec's stop and target formulas rounded to 5 decimal places and the
spec's zero-guarded reward:risk ratio (computed from the unrounded levels)
rounded to 2 decimal places; a calculation fault degrades to the fixed
−1%/+2% stop/target for long (mirrored for short), rounded to 5 decimals,
with ratio exactly 2. -/
theorem sl_tp_spec (entry a m r : ℚ) (d : String)
    (hd : d = "long" ∨ d = "short") :
    calculate_sl_tp entry d (.ok a) (.ok m) (.ok r) =
      (roundDp 5 (spec_stop entry d a m),
       roundDp 5 (spec_target entry d a m r),
       roundDp 2 (spec_ratio entry (spec_stop entry d a m)
         (spec_target entry d a m r))) ∧
    calculate_sl_tp entry d (.error ()) (.ok m) (.ok r) =
      (roundDp 5 (if d = "long" then entry * (99/100) else entry * (101/100)),
       roundDp 5 (if d = "long" then entry * (102/100) else entry * (98/100)),
       2) := by
  constructor
  · unfold calculate_sl_tp spec_stop spec_target spec_ratio
    dsimp only
    rw [guard_ratio_eq _ _ (abs_nonneg _)]
  · rfl

/-- C8 witness: the long direction at entry 1, volatility 1/3, multiplier 1,
target ratio 2. -/
theorem sl_tp_spec_witness :
    calculate_sl_tp 1 "long" (.ok (1/3)) (.ok 1) (.ok 2) =
      (roundDp 5 (spec_stop 1 "long" (1/3) 1),
       roundDp 5 (spec_target 1 "long" (1/3) 1 2),
       roundDp 2 (spec_ratio 1 (spec_stop 1 "long" (1/3) 1)
         (spec_target 1 "long" (1/3) 1 2))) :=
  (sl_tp_spec 1 (1/3) 1 2 "long" (Or.inl rfl)).1

end MT5UI
